import Mathlib

/-! AsmJit code generator: configuration surface and generation contract

`src/AsmJit/CodeGenerator.h` declares the abstract `CodeGenerator` and its default
strategy `JitCodeGenerator`.  The header defines the six inline accessors of
`JitCodeGenerator`; they are embedded here directly.  `JitCodeGenerator::generate`
and `CodeGenerator::getGlobal` are only declared in the header, and `Assembler`,
`MemoryManager` and `MemoryMarker` are forward declarations, so those parts are
modelled from the specification and marked as such.
-/

namespace AsmJit

/-! ## Data of the header -/

/-- A C++ object pointer (`MemoryManager*`, `MemoryMarker*`): the address it holds. -/
abbrev Ptr := Nat

/-- The null pointer. -/
def null : Ptr := 0

/-- Number of values of a `uint32_t`. -/
def UINT32_RANGE : Nat := 4294967296

/-- The members of `JitCodeGenerator` (header lines 103-110). -/
structure JitCodeGenerator where
  /-- Field `MemoryManager* _memoryManager`. -/
  _memoryManager : Ptr
  /-- Field `MemoryMarker* _memoryMarker`. -/
  _memoryMarker : Ptr
  /-- Field `uint32_t _allocType`. -/
  _allocType : Nat
  deriving DecidableEq, Repr

namespace JitCodeGenerator

/-- A generator state whose `uint32_t` member holds a `uint32_t` value. -/
def WellTyped (self : JitCodeGenerator) : Prop :=
  self._allocType < UINT32_RANGE

instance (self : JitCodeGenerator) : Decidable self.WellTyped :=
  inferInstanceAs (Decidable (self._allocType < UINT32_RANGE))

/-- Accessor `getMemoryManager() const { return _memoryManager; }`. -/
def getMemoryManager (self : JitCodeGenerator) : Ptr :=
  self._memoryManager

/-- Accessor `setMemoryManager(MemoryManager* memoryManager) { _memoryManager = memoryManager; }`. -/
def setMemoryManager (self : JitCodeGenerator) (memoryManager : Ptr) : JitCodeGenerator :=
  { self with _memoryManager := memoryManager }

/-- Accessor `getAllocType() const { return _allocType; }`. -/
def getAllocType (self : JitCodeGenerator) : Nat :=
  self._allocType

/-- Accessor `setAllocType(uint32_t allocType) { _allocType = allocType; }`.  The parameter is a
`uint32_t`, so an argument arrives reduced modulo `2^32`. -/
def setAllocType (self : JitCodeGenerator) (allocType : Nat) : JitCodeGenerator :=
  { self with _allocType := allocType % UINT32_RANGE }

/-- Accessor `getMemoryMarker() const { return _memoryMarker; }`. -/
def getMemoryMarker (self : JitCodeGenerator) : Ptr :=
  self._memoryMarker

/-- Accessor `setMemoryMarker(MemoryMarker* memoryMarker) { _memoryMarker = memoryMarker; }`. -/
def setMemoryMarker (self : JitCodeGenerator) (memoryMarker : Ptr) : JitCodeGenerator :=
  { self with _memoryMarker := memoryMarker }

end JitCodeGenerator

/-! ## The generation stage

The header declares `generate`, `getGlobal`, `Assembler`, `MemoryManager` and
`MemoryMarker` without defining them.  The definitions of this section follow
sections 3, 4 and 7 of the specification. -/

/-- Modelled from the spec: the `ERROR_CODE` values `generate` returns, which the header does not
define (section 7: the no-error code and the three error kinds). -/
inductive ErrorCode where
  | NoError
  | AllocationError
  | RelocationError
  | UnsupportedLayoutError
  deriving DecidableEq, Repr

/-- Modelled from the spec: the kind of a `RelocationEntry` (section 3), whose type the header
does not declare. -/
inductive RelocationKind where
  | absolute
  | relative
  | symbolRelative
  deriving DecidableEq, Repr

/-- Modelled from the spec: the target of a `RelocationEntry` (section 3: a label id or an
external address), whose type the header does not declare. -/
inductive RelocationTarget where
  | label (id : Nat)
  | external (address : Nat)
  deriving DecidableEq, Repr

/-- Modelled from the spec: a `RelocationEntry` (section 3: offset, kind, target), with the
instruction-specific data that section 4.2 step 4 and the scenario of section 8 read from an
entry: the declared width of the value in bytes, the adjustment of a displacement, and the number
of opcode bytes that stand at the entry offset before the value (in section 8 the entry at
offset 2 keeps its opcode 0xE9 and has its value in bytes 3-4; `opcodeSize = 0` is an entry whose
value starts at the entry offset itself).  The header does not declare the type. -/
structure RelocationEntry where
  offset : Nat
  kind : RelocationKind
  target : RelocationTarget
  width : Nat
  adjustment : Int
  opcodeSize : Nat
  deriving DecidableEq, Repr

/-- The offset in the buffer of the first byte of the value of an entry. -/
def RelocationEntry.valueOffset (entry : RelocationEntry) : Nat :=
  entry.offset + entry.opcodeSize

/-- Modelled from the spec: the `Assembler` handle, forward-declared in the header; what section 6
lets the generator query: the raw bytes, the ordered relocation entries, and the binding of labels
(`labelOffset id = none` for a label never bound).  Section 4.2 gives no formula for the value of
a symbol-relative entry, so the assembler supplies it: `symbolRelative t base e` for an entry `e`
whose target resolved to address `t` in a region at `base`. -/
structure Assembler where
  code : List Nat
  relocations : List RelocationEntry
  labelOffset : Nat → Option Nat
  symbolRelative : Int → Nat → RelocationEntry → Int

/-- Modelled from the spec: the permission state of a `MemoryRegion` (section 3). -/
inductive Permission where
  | writable
  | executable
  deriving DecidableEq, Repr

/-- Modelled from the spec: a `MemoryRegion` (section 3): a contiguous span with a permission
state and an allocation type tag.  The header does not declare the type. -/
structure MemoryRegion where
  base : Nat
  size : Nat
  permission : Permission
  allocType : Nat
  deriving DecidableEq, Repr

/-- Modelled from the spec: the transition `markExecutable` of section 4.3, forward-declared
with `MemoryManager`: the region becomes executable (section 3). -/
def MemoryRegion.markExecutable (region : MemoryRegion) : MemoryRegion :=
  { region with permission := Permission.executable }

/-- Modelled from the spec: the allocation interface of `MemoryManager` (section 4.3), which the
header only forward-declares.  `acquire state size allocType` grants a region and the next manager
state, or `none` when the request cannot be satisfied; `release` gives a region back; `freeSpace`
reads the free-space accounting.  The strategy behind the interface is a parameter. -/
structure MemoryManager (σ : Type) where
  acquire : σ → Nat → Nat → Option (MemoryRegion × σ)
  release : σ → MemoryRegion → σ
  freeSpace : σ → Nat

/-- Modelled from the spec: what a `MemoryMarker` (forward-declared in the header) receives through
`onRegionFinalized(baseAddress, size)` (section 4.4), with the permission the region has at the
moment of the call. -/
structure MarkerNotice where
  baseAddress : Nat
  size : Nat
  observed : Permission
  deriving DecidableEq, Repr

/-- Addressable memory: the byte stored at each address. -/
abbrev Memory := Nat → Nat

/-- Modelled from the spec: everything outside the generator that a `generate` call reads or
changes: the state of the manager `_memoryManager` points to, memory, the regions handed out as
generated code, and the notices the marker `_memoryMarker` points to has received, oldest first. -/
structure World (σ : Type) where
  manager : σ
  memory : Memory
  regions : List MemoryRegion
  notices : List MarkerNotice

/-- Modelled from the spec: section 4.2 step 3, storing the bytes `bytes` at `addr`, `addr + 1`, ... -/
def writeBytes (memory : Memory) (addr : Nat) (bytes : List Nat) : Memory :=
  fun a => if addr ≤ a ∧ a < addr + bytes.length then bytes.getD (a - addr) 0 else memory a

/-- The `count` bytes stored from `addr` on. -/
def readBytes (memory : Memory) (addr count : Nat) : List Nat :=
  (List.range count).map (fun i => memory (addr + i))

/-- Modelled from the spec: the little-endian encoding in `width` bytes of a value (section 8,
scenario of the relative displacement); a negative value is stored in two's complement. -/
def encodeLE (width : Nat) (value : Int) : List Nat :=
  (List.range width).map (fun j => ((value / 256 ^ j) % 256).toNat)

/-- Modelled from the spec: the address of a relocation target for a region at `base`: a bound
label lies at its offset from the region base, an external address is itself, and a label never
bound cannot be resolved (section 4.2 step 4). -/
def resolveTarget (assembler : Assembler) (base : Nat) : RelocationTarget → Option Int
  | RelocationTarget.label id =>
    match assembler.labelOffset id with
    | some labelOffset => some ((base : Int) + (labelOffset : Int))
    | none => none
  | RelocationTarget.external address => some (address : Int)

/-- Modelled from the spec: the final value of an entry (section 4.2 step 4): absolute address =
region base + label offset; relative displacement = target − (region base + entry offset) −
instruction-specific adjustment. -/
def relocationValue (assembler : Assembler) (base : Nat) (entry : RelocationEntry) : Option Int :=
  match resolveTarget assembler base entry.target with
  | none => none
  | some target =>
    match entry.kind with
    | RelocationKind.absolute => some target
    | RelocationKind.relative =>
      some (target - ((base : Int) + (entry.offset : Int)) - entry.adjustment)
    | RelocationKind.symbolRelative => some (assembler.symbolRelative target base entry)

/-- Modelled from the spec: whether a computed value fits the declared width of its entry
(section 4.2 step 4): an absolute address as an unsigned number of `width` bytes, a displacement
as a signed one. -/
def fitsWidth (entry : RelocationEntry) (value : Int) : Bool :=
  match entry.kind with
  | RelocationKind.absolute => decide (0 ≤ value ∧ value < 256 ^ entry.width)
  | _ => decide (-(256 ^ entry.width : Int) ≤ 2 * value ∧ 2 * value < 256 ^ entry.width)

/-- Modelled from the spec: section 4.2 step 4 over the entries in the order supplied.  An entry
whose byte range leaves the buffer (section 4.1), whose target cannot be resolved, or whose value
overflows its width stops the walk with `RelocationError`; otherwise its value is patched into the
copied bytes of the instruction at the entry offset, behind its opcode bytes (section 8).  Returns
the memory as the walk left it. -/
def relocate (assembler : Assembler) (base : Nat) :
    List RelocationEntry → Memory → ErrorCode × Memory
  | [], memory => (ErrorCode.NoError, memory)
  | entry :: rest, memory =>
    if entry.valueOffset + entry.width ≤ assembler.code.length then
      match relocationValue assembler base entry with
      | none => (ErrorCode.RelocationError, memory)
      | some value =>
        if fitsWidth entry value then
          relocate assembler base rest
            (writeBytes memory (base + entry.valueOffset) (encodeLE entry.width value))
        else (ErrorCode.RelocationError, memory)
    else (ErrorCode.RelocationError, memory)

/-- The outcome of a `generate` call: the returned error value, what was stored in `*dest`
(`none` when nothing was stored), and the world after the call. -/
structure Generated (σ : Type) where
  error : ErrorCode
  dest : Option Nat
  world : World σ

namespace JitCodeGenerator

/-- Modelled from the spec: `JitCodeGenerator::generate(void** dest, Assembler* assembler)`,
declared at header line 97 and defined outside the header, following the seven steps of
section 4.2: request a region of the buffer length with the configured allocation type
(`AllocationError` without a manager or when the manager cannot satisfy the request), copy the
bytes, walk the relocation entries (on `RelocationError` the region is released before the error
is returned), make the region executable, notify the marker if one is configured, and store the
region base in `*dest`. -/
def generate {σ : Type} (manager : MemoryManager σ) (self : JitCodeGenerator)
    (assembler : Assembler) (w : World σ) : Generated σ :=
  if self.getMemoryManager = null then
    { error := ErrorCode.AllocationError, dest := none, world := w }
  else
    match manager.acquire w.manager assembler.code.length self.getAllocType with
    | none => { error := ErrorCode.AllocationError, dest := none, world := w }
    | some (region, leased) =>
      let copied := writeBytes w.memory region.base assembler.code
      let walked := relocate assembler region.base assembler.relocations copied
      if walked.1 = ErrorCode.NoError then
        let final := region.markExecutable
        let notices :=
          if self.getMemoryMarker = null then w.notices
          else w.notices ++ [{ baseAddress := final.base, size := final.size,
                               observed := final.permission }]
        { error := ErrorCode.NoError
          dest := some final.base
          world := { manager := leased, memory := walked.2,
                     regions := w.regions ++ [final], notices := notices } }
      else
        { error := walked.1
          dest := none
          world := { w with manager := manager.release leased region, memory := walked.2 } }

end JitCodeGenerator

/-! ## Well-formed buffers -/

/-- State of the quota manager: the capacity still available and the address of the next grant. -/
structure Quota where
  available : Nat
  next : Nat
  deriving DecidableEq, Repr

/-- Modelled from the spec: a `MemoryManager` of section 4.3 with a capacity quota: a request within
the available capacity is granted at the next address as a writable region of the requested size
and taken off the capacity; a larger one fails, and with zero available capacity every request
fails (section 8); release returns the size of the region to the capacity. -/
def quotaManager : MemoryManager Quota where
  acquire := fun state size allocType =>
    if 0 < state.available ∧ size ≤ state.available then
      some ({ base := state.next, size := size, permission := Permission.writable,
              allocType := allocType },
            { available := state.available - size, next := state.next + size })
    else none
  release := fun state region => { state with available := state.available + region.size }
  freeSpace := fun state => state.available

/-- A world with `capacity` bytes available from address 4096 on, zeroed memory, no region and
no notice. -/
def freshWorld (capacity : Nat) : World Quota where
  manager := { available := capacity, next := 4096 }
  memory := fun _ => 0
  regions := []
  notices := []

/-- The entry of the relative-displacement scenario of section 8: a relative entry at offset 2,
where the one-byte opcode 0xE9 stands, with a value of `width` bytes and adjustment 4, whose
target is label 0. -/
def scenarioEntry (width : Nat) : RelocationEntry where
  offset := 2
  kind := RelocationKind.relative
  target := RelocationTarget.label 0
  width := width
  adjustment := 4
  opcodeSize := 1

/-- The buffer of the relative-displacement scenario of section 8: five bytes and the one entry
`scenarioEntry width`, whose target, label 0, is bound 10 bytes past the region base. -/
def scenarioBuffer (width : Nat) : Assembler where
  code := [0x90, 0x90, 0xE9, 0x00, 0x00]
  relocations := [scenarioEntry width]
  labelOffset := fun id => if id = 0 then some 10 else none
  symbolRelative := fun target _ _ => target

/-- A buffer of two bytes, an opcode and a one-byte displacement, whose only entry references
label 7, which is never bound. -/
def unboundBuffer : Assembler where
  code := [0xEB, 0x00]
  relocations := [{ offset := 0, kind := RelocationKind.relative,
                    target := RelocationTarget.label 7, width := 1, adjustment := 2,
                    opcodeSize := 1 }]
  labelOffset := fun _ => none
  symbolRelative := fun target _ _ => target

/-- A generator configured with a manager at address 1, a marker at address 2 and allocation
type 0. -/
def configured : JitCodeGenerator :=
  { _memoryManager := 1, _memoryMarker := 2, _allocType := 0 }

/-- A generator without manager and without marker. -/
def unconfigured : JitCodeGenerator :=
  { _memoryManager := null, _memoryMarker := null, _allocType := 0 }

/-! ## The process-wide default generator -/

/-- Modelled from the spec: the process-scoped state behind `CodeGenerator::getGlobal`
(section 4.1): the storage of the default generator, `none` until its first use. -/
structure Process where
  defaultGenerator : Option JitCodeGenerator
  deriving DecidableEq, Repr

namespace CodeGenerator

/-- Modelled from the spec: `static JitCodeGenerator* getGlobal()`, declared at header line 44 and
defined outside the header: the one process-wide default generator, created on first use and kept
for the rest of the process (section 4.1).  `constructed` is the state the constructor
`JitCodeGenerator()`, also defined outside the header, gives a new instance.  Returns the
instance the returned pointer designates and the process state after the call. -/
def getGlobal (constructed : JitCodeGenerator) (process : Process) :
    JitCodeGenerator × Process :=
  match process.defaultGenerator with
  | some instance_ => (instance_, process)
  | none => (constructed, { defaultGenerator := some constructed })

/-- A call of a member function through the pointer `getGlobal` returned: the default generator
is updated in place. -/
def throughGlobal (update : JitCodeGenerator → JitCodeGenerator) (process : Process) : Process :=
  { defaultGenerator := process.defaultGenerator.map update }

end CodeGenerator

/-! ## The configuration accessors -/

/-- C6: on every generator state, each getter called after its setter returns the value that was
set: any pointer (null included) for the manager and the marker, any 32-bit unsigned value for the
allocation type. -/
theorem JitCodeGenerator.get_after_set (self : JitCodeGenerator) (m k : Ptr) (t : Nat)
    (ht : t < UINT32_RANGE) :
    (self.setMemoryManager m).getMemoryManager = m ∧
    (self.setMemoryMarker k).getMemoryMarker = k ∧
    (self.setAllocType t).getAllocType = t ∧
    (self.setMemoryManager null).getMemoryManager = null ∧
    (self.setMemoryMarker null).getMemoryMarker = null := by
  refine ⟨rfl, rfl, ?_, rfl, rfl⟩
  simp only [setAllocType, getAllocType]
  exact Nat.mod_eq_of_lt ht

/-- Witness of C6 at the largest 32-bit value. -/
theorem JitCodeGenerator.get_after_set_witness :
    4294967295 < UINT32_RANGE ∧
    ((configured.setMemoryManager 4294967295).getMemoryManager = 4294967295 ∧
     (configured.setMemoryMarker 4294967295).getMemoryMarker = 4294967295 ∧
     (configured.setAllocType 4294967295).getAllocType = 4294967295 ∧
     (configured.setMemoryManager null).getMemoryManager = null ∧
     (configured.setMemoryMarker null).getMemoryMarker = null) :=
  ⟨by decide, JitCodeGenerator.get_after_set configured 4294967295 4294967295 4294967295
    (by decide)⟩

/-- C7: each setter is idempotent: applying it twice with the same value yields exactly the state
that applying it once yields, so the manager, marker and allocation type a later `generate` call
reads are the same in both cases. -/
theorem JitCodeGenerator.set_idempotent (self : JitCodeGenerator) (v : Nat) :
    (self.setMemoryManager v).setMemoryManager v = self.setMemoryManager v ∧
    (self.setMemoryMarker v).setMemoryMarker v = self.setMemoryMarker v ∧
    (self.setAllocType v).setAllocType v = self.setAllocType v ∧
    ((self.setMemoryManager v).setMemoryManager v).getMemoryManager
      = (self.setMemoryManager v).getMemoryManager ∧
    ((self.setMemoryMarker v).setMemoryMarker v).getMemoryMarker
      = (self.setMemoryMarker v).getMemoryMarker ∧
    ((self.setAllocType v).setAllocType v).getAllocType = (self.setAllocType v).getAllocType := by
  refine ⟨rfl, rfl, rfl, rfl, rfl, rfl⟩

/-- C9: each setter changes only its own field, so the two other getters return what they returned
before, and setters of two different fields commute. -/
theorem JitCodeGenerator.set_frame (self : JitCodeGenerator) (m k : Ptr) (t : Nat) :
    ((self.setMemoryManager m).getMemoryMarker = self.getMemoryMarker ∧
     (self.setMemoryManager m).getAllocType = self.getAllocType) ∧
    ((self.setMemoryMarker k).getMemoryManager = self.getMemoryManager ∧
     (self.setMemoryMarker k).getAllocType = self.getAllocType) ∧
    ((self.setAllocType t).getMemoryManager = self.getMemoryManager ∧
     (self.setAllocType t).getMemoryMarker = self.getMemoryMarker) ∧
    ((self.setMemoryManager m).setMemoryMarker k = (self.setMemoryMarker k).setMemoryManager m ∧
     (self.setMemoryManager m).setAllocType t = (self.setAllocType t).setMemoryManager m ∧
     (self.setMemoryMarker k).setAllocType t = (self.setAllocType t).setMemoryMarker k) := by
  refine ⟨⟨rfl, rfl⟩, ⟨rfl, rfl⟩, ⟨rfl, rfl⟩, rfl, rfl, rfl⟩

/-- C10: setters are last-write-wins: setting `a` and then `b` yields the state that setting `b`
alone yields, for each of the three fields; and setting a field to the value its getter returns
gives back the original state. -/
theorem JitCodeGenerator.set_last_write_wins (self : JitCodeGenerator) (a b : Nat)
    (hself : self.WellTyped) :
    ((self.setMemoryManager a).setMemoryManager b = self.setMemoryManager b ∧
     (self.setMemoryMarker a).setMemoryMarker b = self.setMemoryMarker b ∧
     (self.setAllocType a).setAllocType b = self.setAllocType b) ∧
    (self.setMemoryManager self.getMemoryManager = self ∧
     self.setMemoryMarker self.getMemoryMarker = self ∧
     self.setAllocType self.getAllocType = self) ∧
    (((self.setMemoryManager a).setMemoryManager self.getMemoryManager = self) ∧
     ((self.setMemoryMarker a).setMemoryMarker self.getMemoryMarker = self) ∧
     ((self.setAllocType a).setAllocType self.getAllocType = self)) := by
  have hmod : self._allocType % UINT32_RANGE = self._allocType := Nat.mod_eq_of_lt hself
  refine ⟨⟨rfl, rfl, rfl⟩, ⟨rfl, rfl, ?_⟩, rfl, rfl, ?_⟩
  · simp only [setAllocType, getAllocType, hmod]
  · simp only [setAllocType, getAllocType, hmod]

/-- Witness of C10 on a configured generator. -/
theorem JitCodeGenerator.set_last_write_wins_witness :
    configured.WellTyped ∧
    (((configured.setMemoryManager 5).setMemoryManager 9 = configured.setMemoryManager 9 ∧
      (configured.setMemoryMarker 5).setMemoryMarker 9 = configured.setMemoryMarker 9 ∧
      (configured.setAllocType 5).setAllocType 9 = configured.setAllocType 9) ∧
     (configured.setMemoryManager configured.getMemoryManager = configured ∧
      configured.setMemoryMarker configured.getMemoryMarker = configured ∧
      configured.setAllocType configured.getAllocType = configured) ∧
     (((configured.setMemoryManager 5).setMemoryManager configured.getMemoryManager
        = configured) ∧
      ((configured.setMemoryMarker 5).setMemoryMarker configured.getMemoryMarker
        = configured) ∧
      ((configured.setAllocType 5).setAllocType configured.getAllocType = configured))) :=
  ⟨by decide, JitCodeGenerator.set_last_write_wins configured 5 9 (by decide)⟩

/-! ## Copying and patching -/

/-- C2: when no manager is configured, or the configured manager cannot satisfy the request,
`generate` fails with `AllocationError`, stores no destination, and leaves the world as it was: no
region is created and the marker receives no notice. -/
theorem JitCodeGenerator.generate_allocation_error {σ : Type} (manager : MemoryManager σ)
    (self : JitCodeGenerator) (assembler : Assembler) (w : World σ)
    (h : self.getMemoryManager = null ∨
      manager.acquire w.manager assembler.code.length self.getAllocType = none) :
    (generate manager self assembler w).error = ErrorCode.AllocationError ∧
    (generate manager self assembler w).dest = none ∧
    (generate manager self assembler w).world = w ∧
    (generate manager self assembler w).world.regions = w.regions ∧
    (generate manager self assembler w).world.notices = w.notices := by
  by_cases hnull : self.getMemoryManager = null
  · simp [generate, hnull]
  · have hnone := h.resolve_left hnull
    simp [generate, hnull, hnone]

/-- Witness of C2: a manager with zero available capacity. -/
theorem JitCodeGenerator.generate_allocation_error_witness :
    (configured.getMemoryManager = null ∨
      quotaManager.acquire (freshWorld 0).manager (scenarioBuffer 2).code.length
        configured.getAllocType = none) ∧
    ((generate quotaManager configured (scenarioBuffer 2) (freshWorld 0)).error
        = ErrorCode.AllocationError ∧
     (generate quotaManager configured (scenarioBuffer 2) (freshWorld 0)).dest = none ∧
     (generate quotaManager configured (scenarioBuffer 2) (freshWorld 0)).world = freshWorld 0 ∧
     (generate quotaManager configured (scenarioBuffer 2) (freshWorld 0)).world.regions
        = (freshWorld 0).regions ∧
     (generate quotaManager configured (scenarioBuffer 2) (freshWorld 0)).world.notices
        = (freshWorld 0).notices) :=
  ⟨Or.inr (by decide),
   JitCodeGenerator.generate_allocation_error quotaManager configured (scenarioBuffer 2)
     (freshWorld 0) (Or.inr (by decide))⟩

/-! ## The marker -/

/-- C4: with a marker set, a successful `generate` call adds exactly one notice, carrying the base
and size of the region whose base it stores in `*dest`, and the region is executable when the
marker sees it; a failing call adds no notice, whatever the generator. -/
theorem JitCodeGenerator.generate_marker {σ : Type} (manager : MemoryManager σ)
    (self : JitCodeGenerator) (assembler : Assembler) (w : World σ) :
    (self.getMemoryMarker ≠ null →
      (generate manager self assembler w).error = ErrorCode.NoError →
      ∃ region ∈ (generate manager self assembler w).world.regions,
        (generate manager self assembler w).dest = some region.base ∧
        region.permission = Permission.executable ∧
        (generate manager self assembler w).world.notices
          = w.notices ++ [{ baseAddress := region.base, size := region.size,
                            observed := Permission.executable }]) ∧
    ((generate manager self assembler w).error ≠ ErrorCode.NoError →
      (generate manager self assembler w).world.notices = w.notices) := by
  by_cases hnull : self.getMemoryManager = null
  · simp [generate, hnull]
  · cases hacq : manager.acquire w.manager assembler.code.length self.getAllocType with
    | none => simp [generate, hnull, hacq]
    | some grant =>
      obtain ⟨region, leased⟩ := grant
      by_cases hwalk : (relocate assembler region.base assembler.relocations
          (writeBytes w.memory region.base assembler.code)).1 = ErrorCode.NoError
      · refine ⟨fun hmarker _ => ?_, fun hfailed => ?_⟩
        · simp [generate, hnull, hacq, hwalk, hmarker, MemoryRegion.markExecutable]
          exact ⟨_, Or.inr rfl, rfl, rfl, rfl, rfl⟩
        · exact absurd (by simp [generate, hnull, hacq, hwalk]) hfailed
      · simp [generate, hnull, hacq, hwalk]

/-- Witness of C4: the scenario buffer on a configured generator succeeds and the marker gets its
one notice; a buffer with an unbound label fails and the marker gets none. -/
theorem JitCodeGenerator.generate_marker_witness :
    configured.getMemoryMarker ≠ null ∧
    (generate quotaManager configured (scenarioBuffer 2) (freshWorld 64)).error
      = ErrorCode.NoError ∧
    (generate quotaManager configured unboundBuffer (freshWorld 64)).error
      ≠ ErrorCode.NoError ∧
    (∃ region ∈ (generate quotaManager configured (scenarioBuffer 2) (freshWorld 64)).world.regions,
      (generate quotaManager configured (scenarioBuffer 2) (freshWorld 64)).dest
        = some region.base ∧
      region.permission = Permission.executable ∧
      (generate quotaManager configured (scenarioBuffer 2) (freshWorld 64)).world.notices
        = (freshWorld 64).notices ++ [{ baseAddress := region.base, size := region.size,
                                        observed := Permission.executable }]) ∧
    (generate quotaManager configured unboundBuffer (freshWorld 64)).world.notices
      = (freshWorld 64).notices :=
  ⟨by decide, by decide, by decide,
   (JitCodeGenerator.generate_marker quotaManager configured (scenarioBuffer 2)
      (freshWorld 64)).1 (by decide) (by decide),
   (JitCodeGenerator.generate_marker quotaManager configured unboundBuffer
      (freshWorld 64)).2 (by decide)⟩

/-! ## The default generator -/

/-- C8: `getGlobal` denotes one process-wide default generator.  A call always returns an existing
instance, the one kept in the process state; the instance is constructed by the first call only;
a later call returns the same instance and leaves the process unchanged, whatever happened to the
constructor argument; and what `setMemoryManager`, `setMemoryMarker` and `setAllocType` store in
the instance is what every later `getGlobal` result holds. -/
theorem CodeGenerator.getGlobal_single_instance (constructed later : JitCodeGenerator)
    (process : Process) (m k : Ptr) (t : Nat) :
    (CodeGenerator.getGlobal constructed process).2.defaultGenerator
      = some (CodeGenerator.getGlobal constructed process).1 ∧
    (process.defaultGenerator = none →
      (CodeGenerator.getGlobal constructed process).1 = constructed) ∧
    CodeGenerator.getGlobal later (CodeGenerator.getGlobal constructed process).2
      = CodeGenerator.getGlobal constructed process ∧
    (∀ update : JitCodeGenerator → JitCodeGenerator,
      CodeGenerator.getGlobal later
          (CodeGenerator.throughGlobal update (CodeGenerator.getGlobal constructed process).2)
        = (update (CodeGenerator.getGlobal constructed process).1,
           CodeGenerator.throughGlobal update (CodeGenerator.getGlobal constructed process).2)) ∧
    (JitCodeGenerator.getMemoryManager (CodeGenerator.getGlobal later
        (CodeGenerator.throughGlobal (fun g => g.setMemoryManager m)
          (CodeGenerator.getGlobal constructed process).2)).1 = m ∧
     JitCodeGenerator.getMemoryMarker (CodeGenerator.getGlobal later
        (CodeGenerator.throughGlobal (fun g => g.setMemoryMarker k)
          (CodeGenerator.getGlobal constructed process).2)).1 = k ∧
     JitCodeGenerator.getAllocType (CodeGenerator.getGlobal later
        (CodeGenerator.throughGlobal (fun g => g.setAllocType t)
          (CodeGenerator.getGlobal constructed process).2)).1 = t % UINT32_RANGE) := by
  cases hp : process.defaultGenerator with
  | none =>
    simp [CodeGenerator.getGlobal, CodeGenerator.throughGlobal, hp,
      JitCodeGenerator.setMemoryManager, JitCodeGenerator.getMemoryManager,
      JitCodeGenerator.setMemoryMarker, JitCodeGenerator.getMemoryMarker,
      JitCodeGenerator.setAllocType, JitCodeGenerator.getAllocType]
  | some g =>
    simp [CodeGenerator.getGlobal, CodeGenerator.throughGlobal, hp,
      JitCodeGenerator.setMemoryManager, JitCodeGenerator.getMemoryManager,
      JitCodeGenerator.setMemoryMarker, JitCodeGenerator.getMemoryMarker,
      JitCodeGenerator.setAllocType, JitCodeGenerator.getAllocType]

/-- Witness of C8: in a process that has not used the default generator yet, the first call
constructs it, and a manager set through the returned pointer is read back after the next call. -/
theorem CodeGenerator.getGlobal_single_instance_witness :
    ({ defaultGenerator := none } : Process).defaultGenerator = none ∧
    (CodeGenerator.getGlobal unconfigured { defaultGenerator := none }).1 = unconfigured ∧
    JitCodeGenerator.getMemoryManager (CodeGenerator.getGlobal configured
        (CodeGenerator.throughGlobal (fun g => g.setMemoryManager 7)
          (CodeGenerator.getGlobal unconfigured { defaultGenerator := none }).2)).1 = 7 :=
  ⟨rfl,
   (CodeGenerator.getGlobal_single_instance unconfigured configured { defaultGenerator := none }
      7 0 0).2.1 rfl,
   (CodeGenerator.getGlobal_single_instance unconfigured configured { defaultGenerator := none }
      7 0 0).2.2.2.2.1⟩

/-! ## The steps of `generate` once a region is granted -/

/-- With a manager configured and a region granted, a walk that ends without error makes
`generate` hand out the region, executable, with the walked memory. -/
theorem generate_walk_succeeds {σ : Type} (manager : MemoryManager σ) (self : JitCodeGenerator)
    (assembler : Assembler) (w : World σ) (region : MemoryRegion) (leased : σ)
    (hmanager : self.getMemoryManager ≠ null)
    (hacquire : manager.acquire w.manager assembler.code.length self.getAllocType
      = some (region, leased))
    (hwalk : (relocate assembler region.base assembler.relocations
      (writeBytes w.memory region.base assembler.code)).1 = ErrorCode.NoError) :
    JitCodeGenerator.generate manager self assembler w =
      { error := ErrorCode.NoError
        dest := some region.base
        world :=
          { manager := leased
            memory := (relocate assembler region.base assembler.relocations
              (writeBytes w.memory region.base assembler.code)).2
            regions := w.regions ++ [region.markExecutable]
            notices :=
              if self.getMemoryMarker = null then w.notices
              else w.notices ++ [{ baseAddress := region.base, size := region.size,
                                   observed := Permission.executable }] } } := by
  simp [JitCodeGenerator.generate, hmanager, hacquire, hwalk, MemoryRegion.markExecutable]

/-- C5: for the five bytes 0x90 0x90 0xE9 0x00 0x00 with one relative entry at offset 2 whose
target lies 10 bytes past the region base, on a generator whose manager is configured and grants
the request, `generate` succeeds, the value of the entry is 10 − 2 − 4 = 4, the bytes at offsets 3
and 4 of the generated region are its little-endian encoding 0x04, 0x00, and the bytes at
offsets 0 to 2 are 0x90, 0x90, 0xE9. -/
theorem JitCodeGenerator.generate_scenario {σ : Type} (manager : MemoryManager σ)
    (self : JitCodeGenerator) (w : World σ) (region : MemoryRegion) (leased : σ)
    (hmanager : self.getMemoryManager ≠ null)
    (hacquire : manager.acquire w.manager 5 self.getAllocType = some (region, leased)) :
    (generate manager self (scenarioBuffer 2) w).error = ErrorCode.NoError ∧
    (generate manager self (scenarioBuffer 2) w).dest = some region.base ∧
    (∀ entry ∈ (scenarioBuffer 2).relocations,
      entry.offset = 2 ∧ entry.kind = RelocationKind.relative ∧
      resolveTarget (scenarioBuffer 2) region.base entry.target = some ((region.base : Int) + 10) ∧
      relocationValue (scenarioBuffer 2) region.base entry = some 4) ∧
    (generate manager self (scenarioBuffer 2) w).world.memory (region.base + 3) = 0x04 ∧
    (generate manager self (scenarioBuffer 2) w).world.memory (region.base + 4) = 0x00 ∧
    (generate manager self (scenarioBuffer 2) w).world.memory (region.base + 0) = 0x90 ∧
    (generate manager self (scenarioBuffer 2) w).world.memory (region.base + 1) = 0x90 ∧
    (generate manager self (scenarioBuffer 2) w).world.memory (region.base + 2) = 0xE9 := by
  have hvalue : relocationValue (scenarioBuffer 2) region.base (scenarioEntry 2) = some 4 := by
    simp only [relocationValue, resolveTarget, scenarioBuffer, scenarioEntry, if_true]
    congr 1
    push_cast
    ring
  have hfits : fitsWidth (scenarioEntry 2) 4 = true := by decide
  have hrange : (scenarioEntry 2).valueOffset + (scenarioEntry 2).width
      ≤ (scenarioBuffer 2).code.length := by decide
  have hwalk : ∀ memory : Memory,
      relocate (scenarioBuffer 2) region.base (scenarioBuffer 2).relocations memory
        = (ErrorCode.NoError, writeBytes memory (region.base + 3) (encodeLE 2 4)) := by
    intro memory
    show relocate (scenarioBuffer 2) region.base [scenarioEntry 2] memory = _
    simp only [relocate, hrange, if_true, hvalue, hfits]
    rfl
  have hacquire' : manager.acquire w.manager (scenarioBuffer 2).code.length self.getAllocType
      = some (region, leased) := hacquire
  have hwalked : (relocate (scenarioBuffer 2) region.base (scenarioBuffer 2).relocations
      (writeBytes w.memory region.base (scenarioBuffer 2).code)).1 = ErrorCode.NoError := by
    rw [hwalk]
  rw [generate_walk_succeeds manager self (scenarioBuffer 2) w region leased hmanager hacquire'
    hwalked, hwalk]
  refine ⟨rfl, rfl, ?_, ?_, ?_, ?_, ?_, ?_⟩
  · intro entry hmem
    have hentry : entry = scenarioEntry 2 := List.mem_singleton.1 hmem
    rw [hentry]
    exact ⟨rfl, rfl, rfl, hvalue⟩
  all_goals simp [writeBytes, encodeLE, scenarioBuffer, List.range_succ]

/-- Witness of C5: the scenario on a configured generator, with the region placed at 4096. -/
theorem JitCodeGenerator.generate_scenario_witness :
    configured.getMemoryManager ≠ null ∧
    quotaManager.acquire (freshWorld 64).manager 5 configured.getAllocType
      = some ({ base := 4096, size := 5, permission := Permission.writable, allocType := 0 },
              { available := 59, next := 4101 }) ∧
    (generate quotaManager configured (scenarioBuffer 2) (freshWorld 64)).error
      = ErrorCode.NoError ∧
    (generate quotaManager configured (scenarioBuffer 2) (freshWorld 64)).dest = some 4096 ∧
    (generate quotaManager configured (scenarioBuffer 2) (freshWorld 64)).world.memory (4096 + 3)
      = 0x04 ∧
    (generate quotaManager configured (scenarioBuffer 2) (freshWorld 64)).world.memory (4096 + 4)
      = 0x00 ∧
    readBytes (generate quotaManager configured (scenarioBuffer 2) (freshWorld 64)).world.memory
      4096 5 = [0x90, 0x90, 0xE9, 0x04, 0x00] :=
  have hrun := JitCodeGenerator.generate_scenario quotaManager configured (freshWorld 64)
    { base := 4096, size := 5, permission := Permission.writable, allocType := 0 }
    { available := 59, next := 4101 } (by decide) (by decide)
  ⟨by decide, by decide, hrun.1, hrun.2.1, hrun.2.2.2.1, hrun.2.2.2.2.1, by decide⟩

end AsmJit
